import Mathlib

/-!
Shallow embedding of the mortality-dashboard data pipeline in src/dash_app.py.

The script loads a dataframe, filters it to the rows with year (AÑO) 2019, and
computes seven aggregate tables with pandas groupby / size / nlargest /
nsmallest / sort_values / head primitives.  A dataframe row becomes a
Record; a dataframe becomes a List Record; pandas groupby(k).size()
(with its default key-ascending sort) becomes groupbySize below; nlargest and
nsmallest become a stable sort by count followed by take.
-/

namespace DashApp

/-- One row of final_dataframe.parquet, restricted to the columns the script
reads: AÑO, DEPARTAMENTO, MUNICIPIO, MANERA_MUERTE, MES, COD_MUERTE,
Descripción CIE-10, GRUPO_EDAD1, SEXO.  (anio stands for AÑO,
descripcion_cie10 for the CIE-10 description column.) -/
structure Record where
  anio : Int
  departamento : String
  municipio : String
  manera_muerte : String
  mes : Int
  cod_muerte : String
  descripcion_cie10 : String
  grupo_edad1 : Int
  sexo : String
deriving DecidableEq, Repr

/-- Line 32: df_2019 = df[df['AÑO'] == 2019]. -/
def df_2019 (df : List Record) : List Record :=
  df.filter (fun r => decide (r.anio = 2019))

/-- Size of the group of key k: the number of rows whose key equals k
(pandas .groupby(key).size() per group). -/
def countKey {κ : Type} [DecidableEq κ] (key : Record → κ) (rows : List Record) (k : κ) : Nat :=
  (rows.filter (fun r => decide (key r = k))).length

/-- pandas groupby(key).size().reset_index(): one row per distinct key, the
keys sorted ascending by the given order (pandas groupby sorts group keys by
default), each paired with its group size. -/
def groupbySize {κ : Type} [DecidableEq κ] (le : κ → κ → Prop) [DecidableRel le]
    (key : Record → κ) (rows : List Record) : List (κ × Nat) :=
  ((rows.map key).dedup.insertionSort le).map (fun k => (k, countKey key rows k))

/-- Lexicographic comparison of character lists by code points (Python string
comparison, which is the order pandas sorts string group keys in). -/
def charListLtb : List Char → List Char → Bool
  | [], [] => false
  | [], _ :: _ => true
  | _ :: _, [] => false
  | a :: as, b :: bs =>
    if a < b then true else if b < a then false else charListLtb as bs

/-- Strict code-point order on strings. -/
def strLtb (a b : String) : Bool := charListLtb a.data b.data

/-- The non-strict string order pandas uses on string group keys. -/
def strLe (a b : String) : Prop := strLtb b a = false

instance : DecidableRel strLe := fun a b => instDecidableEqBool (strLtb b a) false

/-- Lexicographic order on string pairs (two-column groupby keys). -/
def pairLe (a b : String × String) : Prop :=
  strLtb a.1 b.1 = true ∨ (a.1 = b.1 ∧ strLtb b.2 a.2 = false)

instance : DecidableRel pairLe := fun _ _ => instDecidableOr

/-- Descending-by-count comparison on aggregate rows. -/
def descCnt {κ : Type} (a b : κ × Nat) : Prop := b.2 ≤ a.2

instance {κ : Type} : DecidableRel (@descCnt κ) := fun a b => Nat.decLe b.2 a.2

instance {κ : Type} : IsTotal (κ × Nat) descCnt :=
  ⟨fun a b => Nat.le_total b.2 a.2⟩

instance {κ : Type} : IsTrans (κ × Nat) descCnt :=
  ⟨fun _ _ _ hab hbc => Nat.le_trans hbc hab⟩

/-- Ascending-by-count comparison on aggregate rows. -/
def ascCnt {κ : Type} (a b : κ × Nat) : Prop := a.2 ≤ b.2

instance {κ : Type} : DecidableRel (@ascCnt κ) := fun a b => Nat.decLe a.2 b.2

instance {κ : Type} : IsTotal (κ × Nat) ascCnt := ⟨fun a b => Nat.le_total a.2 b.2⟩

instance {κ : Type} : IsTrans (κ × Nat) ascCnt :=
  ⟨fun _ _ _ hab hbc => Nat.le_trans hab hbc⟩

/-- Stable sort of an aggregate table by count, descending
(pandas nlargest / sort_values(ascending=False)). -/
def sortDesc {κ : Type} (tbl : List (κ × Nat)) : List (κ × Nat) :=
  tbl.insertionSort descCnt

/-- Stable sort of an aggregate table by count, ascending (pandas nsmallest). -/
def sortAsc {κ : Type} (tbl : List (κ × Nat)) : List (κ × Nat) :=
  tbl.insertionSort ascCnt

/-- Lines 39-44: dept_counts = df_2019.groupby('DEPARTAMENTO').size(). -/
def dept_counts (df : List Record) : List (String × Nat) :=
  groupbySize strLe (fun r => r.departamento) (df_2019 df)

/-- Line 59: monthly = df_2019.groupby('MES').size(). -/
def monthly (df : List Record) : List (Int × Nat) :=
  groupbySize (· ≤ ·) (fun r => r.mes) (df_2019 df)

/-- Line 69: df_hom = df_2019[df_2019['MANERA_MUERTE'] == 'Homicidio']. -/
def df_hom (df : List Record) : List Record :=
  (df_2019 df).filter (fun r => decide (r.manera_muerte = "Homicidio"))

/-- Lines 70-76: top5_hom = df_hom.groupby('MUNICIPIO').size()
.nlargest(5, 'Homicidios'). -/
def top5_hom (df : List Record) : List (String × Nat) :=
  (sortDesc (groupbySize strLe (fun r => r.municipio) (df_hom df))).take 5

/-- Line 85: city_counts = df_2019.groupby('MUNICIPIO').size(). -/
def city_counts (df : List Record) : List (String × Nat) :=
  groupbySize strLe (fun r => r.municipio) (df_2019 df)

/-- Line 86: bottom10 = city_counts.nsmallest(10, 'Muertes'). -/
def bottom10 (df : List Record) : List (String × Nat) :=
  (sortAsc (city_counts df)).take 10

/-- Lines 95-102: causes = df_2019.groupby(['COD_MUERTE', 'Descripción CIE-10'])
.size().sort_values('Total', ascending=False).head(10). -/
def causes (df : List Record) : List ((String × String) × Nat) :=
  (sortDesc (groupbySize pairLe
    (fun r => (r.cod_muerte, r.descripcion_cie10)) (df_2019 df))).take 10

/-- Lines 110-111: age_labels = {i: f"{(i-1)*5}-{(i-1)*5+4}" for i in
range(1, 18)}; age_labels[18] = '85+'.  Missing keys map to none (pandas
Series.map yields NaN there). -/
def age_labels (i : Int) : Option String :=
  if 1 ≤ i ∧ i ≤ 17 then
    some (toString ((i - 1) * 5) ++ "-" ++ toString ((i - 1) * 5 + 4))
  else if i = 18 then some "85+"
  else none

/-- Lines 112-118: age_counts = df_2019.groupby('GRUPO_EDAD1').size(), then
a 'Rango de Edad' column added by mapping the code through age_labels.
A row is (code, group size, optional label). -/
def age_counts (df : List Record) : List (Int × Nat × Option String) :=
  (groupbySize (· ≤ ·) (fun r => r.grupo_edad1) (df_2019 df)).map
    (fun p => (p.1, p.2, age_labels p.1))

/-- Lines 127-132: sex_dep = df_2019.groupby(['DEPARTAMENTO', 'SEXO']).size(). -/
def sex_dep (df : List Record) : List ((String × String) × Nat) :=
  groupbySize pairLe (fun r => (r.departamento, r.sexo)) (df_2019 df)

/-- The whole aggregation stage: all seven derived tables, as a function of
the loaded record collection. -/
def pipeline (df : List Record) :
    List (String × Nat) × List (Int × Nat) × List (String × Nat) ×
    List (String × Nat) × List ((String × String) × Nat) ×
    List (Int × Nat × Option String) × List ((String × String) × Nat) :=
  (dept_counts df, monthly df, top5_hom df, bottom10 df, causes df,
   age_counts df, sex_dep df)

/-! ### General lemmas about the groupby / sort building blocks -/

section GroupByLemmas

variable {κ : Type} [DecidableEq κ]

lemma mem_df_2019 {df : List Record} {r : Record} :
    r ∈ df_2019 df ↔ r ∈ df ∧ r.anio = 2019 := by
  simp [df_2019]

lemma groupbySize_perm (le : κ → κ → Prop) [DecidableRel le]
    (key : Record → κ) (rows : List Record) :
    (groupbySize le key rows).Perm
      ((rows.map key).dedup.map (fun k => (k, countKey key rows k))) :=
  ((rows.map key).dedup.perm_insertionSort le).map _

lemma groupbySize_length (le : κ → κ → Prop) [DecidableRel le]
    (key : Record → κ) (rows : List Record) :
    (groupbySize le key rows).length = (rows.map key).dedup.length := by
  simp [groupbySize, List.length_insertionSort]

lemma mem_groupbySize (le : κ → κ → Prop) [DecidableRel le]
    (key : Record → κ) (rows : List Record) {p : κ × Nat}
    (hp : p ∈ groupbySize le key rows) : ∃ r ∈ rows, key r = p.1 := by
  have h1 : p ∈ (rows.map key).dedup.map (fun k => (k, countKey key rows k)) :=
    (groupbySize_perm le key rows).mem_iff.mp hp
  obtain ⟨k, hk, rfl⟩ := List.mem_map.mp h1
  obtain ⟨r, hr, rfl⟩ := List.mem_map.mp (List.mem_dedup.mp hk)
  exact ⟨r, hr, rfl⟩

lemma countKey_eq_count (key : Record → κ) (rows : List Record) (k : κ) :
    countKey key rows k = (rows.map key).count k := by
  rw [List.count_eq_countP, List.countP_map, List.countP_eq_length_filter]
  rfl

lemma groupbySize_sum (le : κ → κ → Prop) [DecidableRel le]
    (key : Record → κ) (rows : List Record) :
    ((groupbySize le key rows).map (fun p => p.2)).sum = rows.length := by
  have hperm : ((groupbySize le key rows).map (fun p => p.2)).Perm
      ((rows.map key).dedup.map (fun k => countKey key rows k)) := by
    have h := (groupbySize_perm le key rows).map (fun p : κ × Nat => p.2)
    simpa [List.map_map, Function.comp] using h
  rw [hperm.sum_eq]
  simp only [countKey_eq_count]
  simpa using List.sum_map_count_dedup_eq_length (rows.map key)

end GroupByLemmas

lemma sortDesc_sorted {κ : Type} (tbl : List (κ × Nat)) :
    (sortDesc tbl).Sorted descCnt :=
  List.sorted_insertionSort descCnt tbl

lemma sortAsc_sorted {κ : Type} (tbl : List (κ × Nat)) :
    (sortAsc tbl).Sorted ascCnt :=
  List.sorted_insertionSort ascCnt tbl

lemma sortDesc_perm {κ : Type} (tbl : List (κ × Nat)) : (sortDesc tbl).Perm tbl :=
  tbl.perm_insertionSort descCnt

lemma sortAsc_perm {κ : Type} (tbl : List (κ × Nat)) : (sortAsc tbl).Perm tbl :=
  tbl.perm_insertionSort ascCnt

/-! ### The claims -/

/-- C1: the filtered set df_2019 contains exactly the records of the loaded
collection whose year attribute equals 2019; in particular it is a subset of
the full collection. -/
theorem C1_df_2019_exact (df : List Record) (r : Record) :
    r ∈ df_2019 df ↔ r ∈ df ∧ r.anio = 2019 :=
  mem_df_2019

/-- C2: the per-department counts of the choropleth table dept_counts sum to
the number of records in the filtered set. -/
theorem C2_dept_counts_sum (df : List Record) :
    ((dept_counts df).map (fun p => p.2)).sum = (df_2019 df).length :=
  groupbySize_sum strLe (fun r => r.departamento) (df_2019 df)

/-- C3: the homicide ranking top5_hom is derived only from records with
manner-of-death "Homicidio", has exactly min(5, number of distinct
municipalities among the homicide records) rows, and is sorted descending by
count. -/
theorem C3_top5_hom (df : List Record) :
    (top5_hom df).length =
      min 5 (((df_hom df).map (fun r => r.municipio)).dedup.length) ∧
    (top5_hom df).Sorted descCnt ∧
    ∀ p ∈ top5_hom df, ∃ r ∈ df_2019 df,
      r.manera_muerte = "Homicidio" ∧ r.municipio = p.1 := by
  refine ⟨?_, ?_, ?_⟩
  · rw [top5_hom, List.length_take, (sortDesc_perm _).length_eq,
      groupbySize_length]
  · exact List.Pairwise.sublist (List.take_sublist 5 _) (sortDesc_sorted _)
  · intro p hp
    have h1 : p ∈ sortDesc
        (groupbySize strLe (fun r => r.municipio) (df_hom df)) :=
      List.take_subset _ _ hp
    obtain ⟨r, hr, hkey⟩ :=
      mem_groupbySize _ _ _ ((sortDesc_perm _).mem_iff.mp h1)
    have h3 := List.mem_filter.mp hr
    exact ⟨r, h3.1, by simpa using h3.2, hkey⟩

/-- C4: the bottom-10 mortality table has exactly min(10, number of distinct
municipalities of the filtered set) rows and is sorted ascending by count. -/
theorem C4_bottom10 (df : List Record) :
    (bottom10 df).length =
      min 10 (((df_2019 df).map (fun r => r.municipio)).dedup.length) ∧
    (bottom10 df).Sorted ascCnt := by
  constructor
  · rw [bottom10, List.length_take, (sortAsc_perm _).length_eq, city_counts,
      groupbySize_length]
  · exact List.Pairwise.sublist (List.take_sublist 10 _) (sortAsc_sorted _)

/-- C5: the top-10 causes table has at most 10 rows, is sorted descending by
count, and every (cause code, cause description) key in it occurs on some
record of the filtered set. -/
theorem C5_causes (df : List Record) :
    (causes df).length ≤ 10 ∧ (causes df).Sorted descCnt ∧
    ∀ p ∈ causes df, ∃ r ∈ df_2019 df,
      r.cod_muerte = p.1.1 ∧ r.descripcion_cie10 = p.1.2 := by
  refine ⟨?_, ?_, ?_⟩
  · exact List.length_take_le 10 _
  · exact List.Pairwise.sublist (List.take_sublist 10 _) (sortDesc_sorted _)
  · intro p hp
    have h1 : p ∈ sortDesc (groupbySize pairLe
        (fun r => (r.cod_muerte, r.descripcion_cie10)) (df_2019 df)) :=
      List.take_subset _ _ hp
    obtain ⟨r, hr, hkey⟩ :=
      mem_groupbySize _ _ _ ((sortDesc_perm _).mem_iff.mp h1)
    exact ⟨r, hr, by rw [← hkey], by rw [← hkey]⟩

lemma groupbySize_nil {κ : Type} [DecidableEq κ] (le : κ → κ → Prop)
    [DecidableRel le] (key : Record → κ) : groupbySize le key [] = [] := rfl

/-- C6: under the documented schema (age-group codes are integers 1-18), the
age-bucket table has at most 18 rows; each row's label is the age_labels
entry for its code: codes 1-17 map to the "(i-1)*5-(i-1)*5+4" range string
and code 18 maps to the literal "85+". -/
theorem C6_age_counts (df : List Record)
    (h : ∀ r ∈ df, 1 ≤ r.grupo_edad1 ∧ r.grupo_edad1 ≤ 18) :
    (age_counts df).length ≤ 18 ∧
    ∀ p ∈ age_counts df,
      (1 ≤ p.1 ∧ p.1 ≤ 17 → p.2.2 =
        some (toString ((p.1 - 1) * 5) ++ "-" ++ toString ((p.1 - 1) * 5 + 4))) ∧
      (p.1 = 18 → p.2.2 = some "85+") := by
  constructor
  · rw [age_counts, List.length_map, groupbySize_length]
    have hnd := List.nodup_dedup ((df_2019 df).map (fun r => r.grupo_edad1))
    have hsub : ((df_2019 df).map (fun r => r.grupo_edad1)).dedup.toFinset ⊆
        Finset.Icc (1 : ℤ) 18 := by
      intro x hx
      rw [List.mem_toFinset, List.mem_dedup] at hx
      obtain ⟨r, hr, rfl⟩ := List.mem_map.mp hx
      exact Finset.mem_Icc.mpr (h r (mem_df_2019.mp hr).1)
    have hcard := Finset.card_le_card hsub
    rw [List.toFinset_card_of_nodup hnd] at hcard
    simpa [Int.card_Icc] using hcard
  · intro p hp
    rw [age_counts] at hp
    obtain ⟨q, hq, rfl⟩ := List.mem_map.mp hp
    refine ⟨fun hr => ?_, fun h18 => ?_⟩
    · simp only [age_labels, if_pos hr]
    · have h18b : q.1 = 18 := h18
      simp only [age_labels, h18b]
      norm_num

/-- The three records of the spec scenario (year 2019 so they survive the
year filter; the remaining attributes are arbitrary concrete values). -/
def recC7a : Record := ⟨2019, "A", "X", "Homicidio", 1, "c1", "d1", 1, "M"⟩

def recC7b : Record := ⟨2019, "A", "Y", "Homicidio", 1, "c1", "d1", 2, "F"⟩

def recC7c : Record := ⟨2019, "B", "X", "Accidente", 2, "c2", "d2", 18, "M"⟩

/-- The spec scenario collection: dept A city X Homicidio month 1,
dept A city Y Homicidio month 1, dept B city X Accidente month 2. -/
def dfC7 : List Record := [recC7a, recC7b, recC7c]

/-- Witness for C6 at the concrete scenario collection. -/
theorem C6_age_counts_witness :
    (∀ r ∈ dfC7, 1 ≤ r.grupo_edad1 ∧ r.grupo_edad1 ≤ 18) ∧
    ((age_counts dfC7).length ≤ 18 ∧
    ∀ p ∈ age_counts dfC7,
      (1 ≤ p.1 ∧ p.1 ≤ 17 → p.2.2 =
        some (toString ((p.1 - 1) * 5) ++ "-" ++ toString ((p.1 - 1) * 5 + 4))) ∧
      (p.1 = 18 → p.2.2 = some "85+")) :=
  ⟨by decide, C6_age_counts dfC7 (by decide)⟩

/-- C7: on the spec's 3-record scenario the monthly trend table is
[(1,2),(2,1)], the homicide ranking is one of its two allowed tie-orders
with total homicide count 2, and the choropleth table is [(A,2),(B,1)]. -/
theorem C7_scenario :
    monthly dfC7 = [(1, 2), (2, 1)] ∧
    (top5_hom dfC7 = [("X", 1), ("Y", 1)] ∨
      top5_hom dfC7 = [("Y", 1), ("X", 1)]) ∧
    ((top5_hom dfC7).map (fun p => p.2)).sum = 2 ∧
    dept_counts dfC7 = [("A", 2), ("B", 1)] :=
  ⟨by decide, Or.inl (by decide), by decide, by decide⟩

/-- C8: the aggregation stage is a pure function of the loaded collection:
two runs on the same input produce the same seven aggregate tables. -/
theorem C8_deterministic (d e : List Record) (h : d = e) :
    pipeline d = pipeline e := by rw [h]

/-- Witness for C8 at the concrete scenario collection. -/
theorem C8_deterministic_witness : pipeline dfC7 = pipeline dfC7 :=
  C8_deterministic dfC7 dfC7 rfl

/-- A record outside the target year, for the C9 witness. -/
def rec2018 : Record := ⟨2018, "A", "X", "Homicidio", 1, "c1", "d1", 1, "M"⟩

/-- C9: if no record has year 2019 the year filter returns the empty set
rather than an error, and every downstream aggregate table is then the empty
table, also without error. -/
theorem C9_empty_year (df : List Record) (h : ∀ r ∈ df, r.anio ≠ 2019) :
    df_2019 df = [] ∧ dept_counts df = [] ∧ monthly df = [] ∧
    top5_hom df = [] ∧ bottom10 df = [] ∧ causes df = [] ∧
    age_counts df = [] ∧ sex_dep df = [] := by
  have h0 : df_2019 df = [] := by
    rw [df_2019, List.filter_eq_nil_iff]
    intro r hr
    simpa using h r hr
  refine ⟨h0, ?_, ?_, ?_, ?_, ?_, ?_, ?_⟩ <;>
    simp [dept_counts, monthly, top5_hom, bottom10, causes, age_counts,
      sex_dep, df_hom, city_counts, h0, groupbySize_nil, sortDesc, sortAsc]

/-- Witness for C9 at a one-record collection from year 2018. -/
theorem C9_empty_year_witness :
    (∀ r ∈ [rec2018], r.anio ≠ 2019) ∧
    (df_2019 [rec2018] = [] ∧ dept_counts [rec2018] = [] ∧
    monthly [rec2018] = [] ∧ top5_hom [rec2018] = [] ∧
    bottom10 [rec2018] = [] ∧ causes [rec2018] = [] ∧
    age_counts [rec2018] = [] ∧ sex_dep [rec2018] = []) :=
  ⟨by decide, C9_empty_year [rec2018] (by decide)⟩

/-- C10: the monthly trend table has one row per distinct month of the
filtered set (its key column is a permutation of those distinct months), its
rows are in strictly increasing month order, and its counts sum to the size
of the filtered set. -/
theorem C10_monthly (df : List Record) :
    ((monthly df).map (fun p => p.1)).Perm
      ((df_2019 df).map (fun r => r.mes)).dedup ∧
    (monthly df).Pairwise (fun p q => p.1 < q.1) ∧
    ((monthly df).map (fun p => p.2)).sum = (df_2019 df).length := by
  refine ⟨?_, ?_, ?_⟩
  · rw [monthly, groupbySize, List.map_map]
    have hid : ((fun p : Int × Nat => p.1) ∘
        (fun k => (k, countKey (fun r => r.mes) (df_2019 df) k))) = id := rfl
    rw [hid, List.map_id]
    exact List.perm_insertionSort _ _
  · rw [monthly, groupbySize]
    refine List.pairwise_map.mpr ?_
    have hs := List.sorted_insertionSort (α := Int) (· ≤ ·)
      (((df_2019 df).map (fun r => r.mes)).dedup)
    have hnd : (((df_2019 df).map (fun r => r.mes)).dedup.insertionSort
        (· ≤ ·)).Nodup :=
      (List.perm_insertionSort _ _).nodup_iff.mpr
        (List.nodup_dedup _)
    exact (hs.and hnd).imp (fun hab => lt_of_le_of_ne hab.1 hab.2)
  · exact groupbySize_sum _ _ _

end DashApp
